import Mathlib

/-!
# MedScanPortal — verification of spec claims against the code

Shallow embedding of the parts of the MedScanPortal repository that the
claims concern:

* the PostgreSQL schema (enums, the `v_pending_scans` and
  `v_patient_reports` views) from the SQL schema file;
* the axios service layer (`api` interceptors, `authService`,
  `patientService`, `radiologistService`);
* the two chat code paths: the asynchronous job-polling `ChatInterface`
  (`pollJobStatus` / `sendMessage`) and the synchronous single-request
  `ChatInterface` variant;
* `handleSaveDraft` from `ReportEditorPage`.

SQL relations are modelled as lists of row structures; a view is a Lean
function from the base relations to the resulting list of rows (`ORDER BY`
is modelled with a stable sort, as SQL's sort is stable on the given keys).
Network requests are modelled by value: a component function returns the
list of requests it issues together with the UI effects (messages appended,
alerts shown), with the replies of the external backend supplied as
arguments.
-/

namespace MedScan

/-! ## Database schema: enums (SQL `CREATE TYPE ... AS ENUM`) -/

/-- `CREATE TYPE scan_status AS ENUM (...)` — the declared value list, in
declaration order. -/
def scan_status_values : List String :=
  ["pending", "in_progress", "ai_analyzed", "radiologist_reviewed", "completed", "cancelled"]

/-- `CREATE TYPE urgency_level AS ENUM ('Routine', 'Urgent', 'Emergent')` -/
inductive UrgencyLevel where
  | Routine
  | Urgent
  | Emergent
deriving DecidableEq, Repr

/-- The six values of the `scan_status` enum, as a Lean type. -/
inductive ScanStatus where
  | pending
  | in_progress
  | ai_analyzed
  | radiologist_reviewed
  | completed
  | cancelled
deriving DecidableEq, Repr

/-- The SQL text of each `scan_status` enum value. -/
def ScanStatus.toSql : ScanStatus → String
  | .pending => "pending"
  | .in_progress => "in_progress"
  | .ai_analyzed => "ai_analyzed"
  | .radiologist_reviewed => "radiologist_reviewed"
  | .completed => "completed"
  | .cancelled => "cancelled"

/-- All `scan_status` constructors, in enum declaration order. -/
def ScanStatus.all : List ScanStatus :=
  [.pending, .in_progress, .ai_analyzed, .radiologist_reviewed, .completed, .cancelled]

/-- `CREATE TYPE examination_type AS ENUM ('X-ray','CT','MRI','PET','Ultrasound')` -/
inductive ExaminationType where
  | XRay
  | CT
  | MRI
  | PET
  | Ultrasound
deriving DecidableEq, Repr

/-- `CREATE TYPE body_region AS ENUM ('Chest','Head','Abdomen','Pelvis','Spine','Extremities')` -/
inductive BodyRegion where
  | Chest
  | Head
  | Abdomen
  | Pelvis
  | Spine
  | Extremities
deriving DecidableEq, Repr

/-- `CREATE TYPE report_status AS ENUM ('draft','pending_review','approved','published','revised','archived')` -/
inductive ReportStatus where
  | draft
  | pending_review
  | approved
  | published
  | revised
  | archived
deriving DecidableEq, Repr

/-! ## Database schema: rows of the tables the views join

Only the columns the two views read are carried; `UUID` keys and
timestamps are modelled as `Nat`. -/

/-- A row of `users` (columns used by the views). -/
structure UserRow where
  id : Nat
  first_name : String
  last_name : String
deriving DecidableEq, Repr

/-- A row of `patient_profiles` (columns used by the views). -/
structure PatientProfileRow where
  id : Nat
  user_id : Nat
  patient_id : String
deriving DecidableEq, Repr

/-- A row of `scans` (columns used by the views). -/
structure ScanRow where
  id : Nat
  patient_id : Nat
  scan_number : String
  examination_type : ExaminationType
  body_region : BodyRegion
  urgency_level : UrgencyLevel
  status : ScanStatus
  scan_date : Nat
  assigned_radiologist_id : Option Nat
deriving DecidableEq, Repr

/-- A row of `reports` (columns used by `v_patient_reports`). -/
structure ReportRow where
  id : Nat
  scan_id : Nat
  report_number : String
  report_title : String
  findings : String
  impression : String
  recommendations : String
  report_status : ReportStatus
  published_at : Option Nat
deriving DecidableEq, Repr

/-- A row of `report_publications` (columns used by `v_patient_reports`). -/
structure ReportPublicationRow where
  report_id : Nat
  visible_to_patient : Bool
  unpublished_at : Option Nat
deriving DecidableEq, Repr

/-! ## View `v_pending_scans` -/

/-- The `CASE s.urgency_level WHEN 'Emergent' THEN 1 WHEN 'Urgent' THEN 2
WHEN 'Routine' THEN 3 END` sort key of `v_pending_scans`. -/
def urgencyCase : UrgencyLevel → Nat
  | .Emergent => 1
  | .Urgent => 2
  | .Routine => 3

/-- The `WHERE s.status IN ('pending', 'in_progress', 'ai_analyzed')` filter
set of `v_pending_scans`. -/
def pendingStatuses : List ScanStatus := [.pending, .in_progress, .ai_analyzed]

/-- The `ORDER BY CASE urgency ..., scan_date ASC` ordering of
`v_pending_scans`: strictly smaller urgency case value first, ties by
ascending `scan_date`. -/
def pendingOrder (a b : ScanRow) : Prop :=
  urgencyCase a.urgency_level < urgencyCase b.urgency_level ∨
    (urgencyCase a.urgency_level = urgencyCase b.urgency_level ∧ a.scan_date ≤ b.scan_date)

instance : DecidableRel pendingOrder := fun a b => by
  unfold pendingOrder; infer_instance

instance : IsTotal ScanRow pendingOrder where
  total a b := by
    unfold pendingOrder
    rcases Nat.lt_trichotomy (urgencyCase a.urgency_level) (urgencyCase b.urgency_level) with h | h | h
    · exact Or.inl (Or.inl h)
    · rcases Nat.le_total a.scan_date b.scan_date with h' | h'
      · exact Or.inl (Or.inr ⟨h, h'⟩)
      · exact Or.inr (Or.inr ⟨h.symm, h'⟩)
    · exact Or.inr (Or.inl h)

instance : IsTrans ScanRow pendingOrder where
  trans a b c hab hbc := by
    unfold pendingOrder at *
    rcases hab with h1 | ⟨h1, h1'⟩ <;> rcases hbc with h2 | ⟨h2, h2'⟩
    · exact Or.inl (h1.trans h2)
    · exact Or.inl (h2 ▸ h1)
    · exact Or.inl (h1 ▸ h2)
    · exact Or.inr ⟨h1.trans h2, h1'.trans h2'⟩

/-- The view `v_pending_scans`: scans joined with patient profile and user
(inner joins on the keys), restricted to the three work-queue statuses and
ordered by urgency case then ascending scan date. The join keeps the scan
row whole; the projected columns are all drawn from it plus the patient
name, which does not affect filtering or ordering, so the view body is
stated on `ScanRow`. -/
def v_pending_scans (scans : List ScanRow) : List ScanRow :=
  (scans.filter fun s => decide (s.status ∈ pendingStatuses)).insertionSort pendingOrder

/-! ## View `v_patient_reports` -/

/-- A row returned by `v_patient_reports` (the view's SELECT list). -/
structure PatientReportRow where
  report_id : Nat
  report_number : String
  report_title : String
  findings : String
  impression : String
  recommendations : String
  published_at : Option Nat
  scan_number : String
  examination_type : ExaminationType
  body_region : BodyRegion
  scan_date : Nat
  patient_id : String
  patient_user_id : Nat
deriving DecidableEq, Repr

/-- The view `v_patient_reports`: reports joined to scans, patient profiles,
users and report publications on the foreign keys, restricted by
`WHERE r.report_status = 'published' AND rp.visible_to_patient = TRUE
AND rp.unpublished_at IS NULL`. -/
def v_patient_reports (reports : List ReportRow) (scans : List ScanRow)
    (profiles : List PatientProfileRow) (users : List UserRow)
    (pubs : List ReportPublicationRow) : List PatientReportRow :=
  reports.flatMap fun r =>
    scans.flatMap fun s =>
      profiles.flatMap fun pp =>
        users.flatMap fun u =>
          pubs.filterMap fun rp =>
            if r.scan_id = s.id ∧ s.patient_id = pp.id ∧ pp.user_id = u.id ∧
                rp.report_id = r.id ∧ r.report_status = .published ∧
                rp.visible_to_patient = true ∧ rp.unpublished_at = none then
              some
                { report_id := r.id
                  report_number := r.report_number
                  report_title := r.report_title
                  findings := r.findings
                  impression := r.impression
                  recommendations := r.recommendations
                  published_at := r.published_at
                  scan_number := s.scan_number
                  examination_type := s.examination_type
                  body_region := s.body_region
                  scan_date := s.scan_date
                  patient_id := pp.patient_id
                  patient_user_id := u.id }
            else none

/-! ## Shared api client (`src/services/api.ts`)

Local storage is modelled as a partial map from keys to strings; the axios
client as the pair of response interceptors plus axios's default status
validation (2xx succeeds, everything else goes to the rejection handler). -/

/-- Browser local storage: a key-value store. -/
def LocalStorage := String → Option String

/-- `localStorage.removeItem(key)`. -/
def removeItem (st : LocalStorage) (key : String) : LocalStorage :=
  fun k => if k = key then none else st k

/-- Model of an axios error as the interceptors and chat handlers inspect
it: the optional HTTP status of `error.response`, the optional
`error.response.data.detail` string, and the optional `error.message`. -/
structure AxiosErrorModel where
  responseStatus : Option Nat
  responseDetail : Option String
  message : Option String
deriving DecidableEq, Repr

/-- Outcome of the response interceptors on one response or error: the
local storage afterwards and the value assigned to `window.location.href`
(if any). -/
structure InterceptResult where
  storage : LocalStorage
  redirect : Option String

/-- The rejection handler of `api.interceptors.response.use`: on a 401
response it removes `token` and `user` and navigates to `/login`; in every
other case it just re-rejects, touching nothing. -/
def onResponseRejected (st : LocalStorage) (err : AxiosErrorModel) : InterceptResult :=
  if err.responseStatus = some 401 then
    { storage := removeItem (removeItem st "token") "user", redirect := some "/login" }
  else
    { storage := st, redirect := none }

/-- axios's default `validateStatus`: a response is delivered to the
fulfilled handler iff `200 <= status < 300`. -/
def validateStatus (status : Nat) : Bool := 200 ≤ status && status < 300

/-- What the shared `api` client does to local storage and the location on
receiving an HTTP response of the given status: 2xx responses pass through
the fulfilled handler `(response) => response` untouched; every other
status becomes an axios error with `error.response.status = status` and
goes through `onResponseRejected`. -/
def apiHandleStatus (st : LocalStorage) (status : Nat) : InterceptResult :=
  if validateStatus status then
    { storage := st, redirect := none }
  else
    onResponseRejected st { responseStatus := some status, responseDetail := none, message := none }

/-! ## Service layer (`authService`, `patientService`, `radiologistService`)

Each service function is embedded as a Lean function returning the request
it issues: HTTP method and URL path (relative to the api client's base
URL). Request bodies do not matter to any claim and are omitted. -/

/-- An HTTP request issued through the api client or raw axios. -/
structure ApiCall where
  method : String
  url : String
  timeoutMs : Option Nat := none
deriving DecidableEq, Repr

def authService_login (_email _password : String) : ApiCall := ⟨"POST", "/auth/login", none⟩
def authService_logout : ApiCall := ⟨"POST", "/auth/logout", none⟩
def authService_getCurrentUser : ApiCall := ⟨"GET", "/auth/me", none⟩

def patientService_getScans : ApiCall := ⟨"GET", "/patient/scans", none⟩
def patientService_getScanById (scanId : String) : ApiCall :=
  ⟨"GET", "/patient/scans/" ++ scanId, none⟩
def patientService_getReports : ApiCall := ⟨"GET", "/patient/reports", none⟩
def patientService_getReportById (reportId : String) : ApiCall :=
  ⟨"GET", "/patient/reports/" ++ reportId, none⟩
def patientService_getProfile : ApiCall := ⟨"GET", "/patient/profile", none⟩

def radiologistService_getPendingScans : ApiCall := ⟨"GET", "/radiologist/scans/pending", none⟩
def radiologistService_getCompletedScans : ApiCall := ⟨"GET", "/radiologist/scans/completed", none⟩
def radiologistService_getScanById (scanId : String) : ApiCall :=
  ⟨"GET", "/radiologist/scans/" ++ scanId, none⟩
def radiologistService_getScanImages (scanId : String) : ApiCall :=
  ⟨"GET", "/radiologist/scans/" ++ scanId, none⟩
def radiologistService_uploadImage (scanId : String) : ApiCall :=
  ⟨"POST", "/radiologist/scans/" ++ scanId ++ "/upload-image", none⟩
def radiologistService_startAIAnalysis (scanId : String) : ApiCall :=
  ⟨"POST", "/radiologist/scans/" ++ scanId ++ "/analyze", none⟩
def radiologistService_getAIResults (scanId : String) : ApiCall :=
  ⟨"GET", "/radiologist/scans/" ++ scanId ++ "/ai-results", none⟩
def radiologistService_submitFeedback (scanId : String) : ApiCall :=
  ⟨"POST", "/radiologist/scans/" ++ scanId ++ "/feedback", none⟩
def radiologistService_getDraftReport (scanId : String) : ApiCall :=
  ⟨"GET", "/radiologist/scans/" ++ scanId ++ "/draft-report", none⟩
def radiologistService_updateReport (reportId : String) : ApiCall :=
  ⟨"PUT", "/radiologist/reports/" ++ reportId, none⟩
def radiologistService_publishReport (reportId : String) : ApiCall :=
  ⟨"POST", "/radiologist/reports/" ++ reportId ++ "/publish", none⟩
def radiologistService_unpublishReport (reportId : String) : ApiCall :=
  ⟨"POST", "/radiologist/reports/" ++ reportId ++ "/unpublish", none⟩
def radiologistService_getProfile : ApiCall := ⟨"GET", "/radiologist/profile", none⟩

/-- The URL templates targetable by the service layer: every service
function applied to the placeholder `{id}`. -/
def serviceLayerPaths : List String :=
  [ (authService_login "{email}" "{password}").url
  , authService_logout.url
  , authService_getCurrentUser.url
  , patientService_getScans.url
  , (patientService_getScanById "{id}").url
  , patientService_getReports.url
  , (patientService_getReportById "{id}").url
  , patientService_getProfile.url
  , radiologistService_getPendingScans.url
  , radiologistService_getCompletedScans.url
  , (radiologistService_getScanById "{id}").url
  , (radiologistService_getScanImages "{id}").url
  , (radiologistService_uploadImage "{id}").url
  , (radiologistService_startAIAnalysis "{id}").url
  , (radiologistService_getAIResults "{id}").url
  , (radiologistService_submitFeedback "{id}").url
  , (radiologistService_getDraftReport "{id}").url
  , (radiologistService_updateReport "{id}").url
  , (radiologistService_publishReport "{id}").url
  , (radiologistService_unpublishReport "{id}").url
  , radiologistService_getProfile.url ]

/-- The endpoint paths the spec lists in section 6 (rag paths included),
with `{id}` / `{jobId}` as placeholders. -/
def specListedPaths : List String :=
  [ "/auth/login"
  , "/patient/scans", "/patient/reports", "/patient/profile"
  , "/radiologist/scans/pending", "/radiologist/scans/completed"
  , "/radiologist/scans/{id}", "/radiologist/scans/{id}/analyze"
  , "/radiologist/scans/{id}/feedback", "/radiologist/scans/{id}/ai-results"
  , "/radiologist/scans/{id}/draft-report"
  , "/radiologist/reports/{id}", "/radiologist/reports/{id}/publish"
  , "/radiologist/reports/{id}/unpublish"
  , "/rag/chat", "/rag/chat/start", "/rag/chat/status/{jobId}" ]

/-! ## Chat components

Two `ChatInterface` implementations exist: the asynchronous one starts a
job at `/rag/chat/start` and polls `/rag/chat/status/{jobId}` every 2000 ms
with `pollJobStatus`, the synchronous one sends a single POST to
`/rag/chat` with a 300000 ms timeout. Requests issued and messages
appended are computed as values; the backend's replies are inputs. -/

/-- JavaScript truthiness of an optional string (`undefined`, `null` and
`''` are falsy). -/
def jsTruthy : Option String → Bool
  | none => false
  | some s => s ≠ ""

/-- JavaScript `String.prototype.trim()`: strip whitespace from both ends
(structural on the character list, so it evaluates by `decide`/`rfl`). -/
def jsTrim (s : String) : String :=
  ⟨((s.data.dropWhile Char.isWhitespace).reverse.dropWhile Char.isWhitespace).reverse⟩

/-- JavaScript `a || b` on an optional string and a default. -/
def jsOrElse (a : Option String) (b : String) : String :=
  match a with
  | some s => if s = "" then b else s
  | none => b

/-- A chat message as the components append it. -/
structure MessageModel where
  role : String
  content : String
  sources : List String := []
deriving DecidableEq, Repr

/-- The `result` object of a completed `/rag/chat/status/{jobId}` reply. -/
structure ChatResult where
  response : String
  sources : Option (List String)
deriving DecidableEq, Repr

/-- The body of a `/rag/chat/status/{jobId}` reply:
`const { status, result, error } = response.data`. -/
structure StatusResponse where
  status : String
  result : Option ChatResult
  error : Option String
deriving DecidableEq, Repr

/-- What one status poll yields: a response, or a thrown axios error. -/
inductive PollReply where
  | ok (resp : StatusResponse)
  | err (e : AxiosErrorModel)
deriving DecidableEq, Repr

/-- How one run of `pollJobStatus`'s interval ends: `resolve()` after
appending the assistant message, or `reject(error)`. -/
inductive PollOutcome where
  | resolved (msg : MessageModel)
  | rejected (e : AxiosErrorModel)
deriving DecidableEq, Repr

/-- `const maxPolls = 150; // 5 minutes max` -/
def maxPolls : Nat := 150

/-- The interval period of `pollJobStatus`: `}, 2000); // Poll every 2 seconds` -/
def pollIntervalMs : Nat := 2000

/-- A JS `Error(msg)` as an axios error: no response, only a message. -/
def jsError (msg : String) : AxiosErrorModel :=
  { responseStatus := none, responseDetail := none, message := some msg }

/-- The error thrown by the 150th unsuccessful poll. -/
def pollTimeoutError : AxiosErrorModel :=
  jsError "Request timed out. The AI is taking longer than expected."

/-- One run of the `pollJobStatus` interval from a given `pollCount`,
with `replies i` the result of the poll request whose (post-increment)
count is `i + 1`. Returns the number of status requests issued, whether
the interval ends cleared, and the outcome. Each tick increments
`pollCount`, issues the GET; a thrown request rejects with that error;
a reply with `status === 'completed'` and a non-null `result` resolves
with the assistant message; `status === 'failed'` throws
`error || 'AI processing failed'`; otherwise, once
`pollCount >= maxPolls`, the timeout error is thrown; in all those cases
the interval is cleared, and in every remaining case the interval ticks
again. -/
def pollTicks (replies : Nat → PollReply) (pollCount : Nat) :
    Nat × Bool × PollOutcome :=
  let newCount := pollCount + 1
  match replies pollCount with
  | .err e => (1, true, .rejected e)
  | .ok resp =>
    match (if resp.status = "completed" then resp.result else none) with
    | some result =>
      (1, true, .resolved
        { role := "assistant", content := result.response
          sources := result.sources.getD [] })
    | none =>
      if resp.status = "failed" then
        (1, true, .rejected (jsError (jsOrElse resp.error "AI processing failed")))
      else if maxPolls ≤ newCount then
        (1, true, .rejected pollTimeoutError)
      else
        let rest := pollTicks replies newCount
        (rest.1 + 1, rest.2.1, rest.2.2)
termination_by maxPolls - pollCount
decreasing_by
  simp only [maxPolls] at *
  omega

/-- `pollJobStatus(jobId)`: the interval starts with `pollCount = 0`. -/
def pollJobStatus (replies : Nat → PollReply) : Nat × Bool × PollOutcome :=
  pollTicks replies 0

/-- The GET request the `i`-th poll issues (0-based). -/
def pollRequest (apiBaseUrl jobId : String) : ApiCall :=
  ⟨"GET", apiBaseUrl ++ "/rag/chat/status/" ++ jobId, some 10000⟩

/-- The error-message selection of the asynchronous `sendMessage`'s catch
block: generic text, overridden in order by the 504 slow-response text,
`error.response.data.detail`, then `error.message`. -/
def chatErrorMessagePolling (e : AxiosErrorModel) : String :=
  if e.responseStatus = some 504 then
    "The AI is taking longer than expected to respond. Please try a simpler question or try again later."
  else if jsTruthy e.responseDetail then
    e.responseDetail.getD ""
  else if jsTruthy e.message then
    e.message.getD ""
  else
    "Sorry, I encountered an error. Please try again."

/-- The error-message selection of the synchronous variant's catch block:
`error.response?.data?.detail || 'Sorry, I encountered an error. Please
try again.'`. -/
def chatErrorMessageSync (e : AxiosErrorModel) : String :=
  jsOrElse e.responseDetail "Sorry, I encountered an error. Please try again."

/-- Reply to the `/rag/chat/start` POST: a job id, or a thrown error. -/
inductive StartReply where
  | ok (job_id : String)
  | err (e : AxiosErrorModel)
deriving DecidableEq, Repr

/-- The asynchronous `sendMessage`: guard on empty input / loading, append
the user message, POST `/rag/chat/start` (timeout 10000), then await
`pollJobStatus`; any caught error appends the assistant error message
chosen by `chatErrorMessagePolling`. Returns the requests issued (start
request, then one entry per status poll) and the messages appended. -/
def sendMessagePolling (apiBaseUrl input : String) (loading : Bool)
    (start : StartReply) (replies : Nat → PollReply) :
    List ApiCall × List MessageModel :=
  if jsTrim input = "" || loading then ([], [])
  else
    let userMessage : MessageModel := { role := "user", content := jsTrim input }
    let startCall : ApiCall := ⟨"POST", apiBaseUrl ++ "/rag/chat/start", some 10000⟩
    match start with
    | .err e => ([startCall], [userMessage,
        { role := "assistant", content := chatErrorMessagePolling e }])
    | .ok job_id =>
      let run := pollJobStatus replies
      let polls := (List.range run.1).map fun _ => pollRequest apiBaseUrl job_id
      match run.2.2 with
      | .resolved msg => (startCall :: polls, [userMessage, msg])
      | .rejected e => (startCall :: polls, [userMessage,
          { role := "assistant", content := chatErrorMessagePolling e }])

/-! ## Report editor (`ReportEditorPage.tsx`) -/

/-- The loaded report as `handleSaveDraft` reads it: its id and
`report_status` (both strings in the component). -/
structure LoadedReport where
  id : String
  report_status : String
deriving DecidableEq, Repr

/-- `handleSaveDraft`: returns nothing when no report is loaded; when
`isPublished` (`report.report_status === 'published'`) it only alerts and
returns; otherwise it PUTs the draft via
`radiologistService.updateReport(report.id, ...)` and alerts success or
failure. Returns the requests issued and the alert shown (if any), with
`saveSucceeds` the fate of the PUT. -/
def handleSaveDraft (report : Option LoadedReport) (saveSucceeds : Bool) :
    List ApiCall × Option String :=
  match report with
  | none => ([], none)
  | some r =>
    if r.report_status = "published" then
      ([], some "Cannot edit a published report. Please unpublish it first.")
    else
      ([radiologistService_updateReport r.id],
        some (if saveSucceeds then "Draft saved successfully" else "Failed to save draft"))

/-- Reply to the synchronous `/rag/chat` POST. -/
inductive ChatReply where
  | ok (response : String) (sources : Option (List String))
  | err (e : AxiosErrorModel)
deriving DecidableEq, Repr

/-- The synchronous variant's `sendMessage`: guard on empty input /
loading, append the user message, then a single POST to `/rag/chat` with
`timeout: 300000`; the reply (or the caught error's message via
`chatErrorMessageSync`) is appended as the one assistant message. -/
def sendMessageSync (apiBaseUrl input : String) (loading : Bool)
    (reply : ChatReply) : List ApiCall × List MessageModel :=
  if jsTrim input = "" || loading then ([], [])
  else
    let userMessage : MessageModel := { role := "user", content := jsTrim input }
    let call : ApiCall := ⟨"POST", apiBaseUrl ++ "/rag/chat", some 300000⟩
    match reply with
    | .ok response sources =>
      ([call], [userMessage,
        { role := "assistant", content := response, sources := sources.getD [] }])
    | .err e =>
      ([call], [userMessage,
        { role := "assistant", content := chatErrorMessageSync e }])

/-! ## Auxiliary predicates and concrete example values -/

/-- A status-poll reply that keeps the interval going: a delivered response
whose status is neither `completed` nor `failed`. -/
def isNonTerminal : PollReply → Bool
  | .ok resp => resp.status != "completed" && resp.status != "failed"
  | .err _ => false

/-- Example local storage holding a token and a user. -/
def storageEx : LocalStorage :=
  fun k => if k = "token" then some "jwt" else if k = "user" then some "alice" else none

/-- Example rows for the witness database. -/
def userEx : UserRow := ⟨1, "Ada", "Lovelace"⟩

def profileEx : PatientProfileRow := ⟨2, 1, "P-0001"⟩

def scanEx : ScanRow :=
  ⟨3, 2, "SCAN-1", .XRay, .Chest, .Routine, .completed, 100, none⟩

def reportEx : ReportRow :=
  ⟨4, 3, "REP-1", "Chest X-ray", "clear", "normal", "none", .published, some 200⟩

def pubEx : ReportPublicationRow := ⟨4, true, none⟩

/-- The row `v_patient_reports` produces from the example database. -/
def patientReportRowEx : PatientReportRow :=
  ⟨4, "REP-1", "Chest X-ray", "clear", "normal", "none", some 200,
    "SCAN-1", .XRay, .Chest, 100, "P-0001", 1⟩

/-- Example scan rows for the pending-scans witness: one of each urgency
plus a completed scan that the view must drop. -/
def scansEx : List ScanRow :=
  [ ⟨10, 2, "S-A", .CT, .Head, .Routine, .pending, 5, none⟩
  , ⟨11, 2, "S-B", .MRI, .Spine, .Emergent, .in_progress, 9, none⟩
  , ⟨12, 2, "S-C", .XRay, .Chest, .Urgent, .ai_analyzed, 1, none⟩
  , ⟨13, 2, "S-D", .XRay, .Chest, .Routine, .completed, 0, none⟩
  , ⟨14, 2, "S-E", .PET, .Abdomen, .Emergent, .pending, 3, none⟩ ]

/-- A status reply that is still processing. -/
def processingReply : PollReply := .ok ⟨"processing", none, none⟩

/-- A network-style error: a message but no HTTP response. -/
def networkErrorEx : AxiosErrorModel := jsError "Network Error"

/-- Poll replies that keep processing for three polls and then throw. -/
def repliesErrAt3 : Nat → PollReply :=
  fun i => if i < 3 then processingReply else .err networkErrorEx

/-- The paths the service layer targets beyond the ones the spec lists. -/
def serviceLayerExtraPaths : List String :=
  [ "/auth/logout", "/auth/me", "/patient/scans/{id}", "/patient/reports/{id}"
  , "/radiologist/scans/{id}/upload-image", "/radiologist/profile" ]

/-- The rag endpoints of the spec list: issued by the chat components via
raw axios, not by any service function. -/
def ragPaths : List String := ["/rag/chat", "/rag/chat/start", "/rag/chat/status/{jobId}"]

/-- An error carrying a server-provided detail. -/
def detailErrorEx : AxiosErrorModel :=
  { responseStatus := some 500, responseDetail := some "Rate limit exceeded"
    message := some "Request failed with status code 500" }

/-- A 504 gateway-timeout error. -/
def err504Ex : AxiosErrorModel :=
  { responseStatus := some 504, responseDetail := some "upstream timeout"
    message := some "Request failed with status code 504" }

/-! ## Helper lemmas about the polling loop -/

theorem isNonTerminal_ok {replies : Nat → PollReply} {i : Nat}
    (h : isNonTerminal (replies i) = true) :
    ∃ resp, replies i = .ok resp ∧ resp.status ≠ "completed" ∧ resp.status ≠ "failed" := by
  cases hrep : replies i with
  | err e => rw [hrep] at h; simp [isNonTerminal] at h
  | ok resp =>
    rw [hrep] at h
    simp only [isNonTerminal, Bool.and_eq_true, bne_iff_ne, ne_eq] at h
    exact ⟨resp, rfl, h.1, h.2⟩

/-- A run of `pollTicks` whose polls all stay non-terminal up to `maxPolls`
issues exactly `maxPolls - pollCount` further requests and rejects with the
timeout error. -/
theorem pollTicks_timeout (replies : Nat → PollReply) :
    ∀ n pollCount, maxPolls - pollCount = n → pollCount < maxPolls →
      (∀ i, pollCount ≤ i → i < maxPolls → isNonTerminal (replies i) = true) →
      pollTicks replies pollCount = (maxPolls - pollCount, true, .rejected pollTimeoutError) := by
  intro n
  induction n with
  | zero => intro pollCount h1 h2 _; omega
  | succ m ih =>
    intro pollCount hn hlt hall
    obtain ⟨resp, hrep, hc, hf⟩ := isNonTerminal_ok (hall pollCount le_rfl hlt)
    rw [pollTicks.eq_def, hrep]
    simp only [if_neg hc, if_neg hf]
    by_cases hend : maxPolls ≤ pollCount + 1
    · have : maxPolls - pollCount = 1 := by omega
      rw [if_pos hend, this]
    · rw [if_neg hend]
      have hrec := ih (pollCount + 1) (by omega) (by omega)
        (fun i h1 h2 => hall i (by omega) h2)
      rw [hrec]
      have : maxPolls - (pollCount + 1) + 1 = maxPolls - pollCount := by omega
      simp [this]

/-- `pollTicks` never issues more than `maxPolls - pollCount` requests. -/
theorem pollTicks_le (replies : Nat → PollReply) :
    ∀ n pollCount, maxPolls - pollCount = n → pollCount < maxPolls →
      (pollTicks replies pollCount).1 ≤ n := by
  intro n
  induction n with
  | zero => intro pollCount h1 h2; omega
  | succ m ih =>
    intro pollCount hn hlt
    rw [pollTicks.eq_def]
    cases replies pollCount with
    | err e => simp
    | ok resp =>
      cases hco : (if resp.status = "completed" then resp.result else none) with
      | some result => simp [hco]
      | none =>
        simp only [hco]
        by_cases hf : resp.status = "failed"
        · simp [hf]
        · rw [if_neg hf]
          by_cases hend : maxPolls ≤ pollCount + 1
          · simp [hend]
          · rw [if_neg hend]
            have hrec := ih (pollCount + 1) (by omega) (by omega)
            simpa using Nat.add_le_add_right hrec 1

/-- If the polls before index `j` stay non-terminal and the poll at `j`
throws `e`, the run issues exactly `j + 1` requests (counted from
`pollCount`, with `j` relative) and rejects with `e`. -/
theorem pollTicks_err (replies : Nat → PollReply) (e : AxiosErrorModel) :
    ∀ j pollCount, pollCount + j < maxPolls →
      (∀ i, pollCount ≤ i → i < pollCount + j → isNonTerminal (replies i) = true) →
      replies (pollCount + j) = .err e →
      pollTicks replies pollCount = (j + 1, true, .rejected e) := by
  intro j
  induction j with
  | zero =>
    intro pollCount _ _ herr
    rw [pollTicks.eq_def]
    simp only [Nat.add_zero] at herr
    rw [herr]
  | succ m ih =>
    intro pollCount hlt hall herr
    obtain ⟨resp, hrep, hc, hf⟩ :=
      isNonTerminal_ok (hall pollCount le_rfl (by omega))
    rw [pollTicks.eq_def, hrep]
    simp only [if_neg hc, if_neg hf]
    rw [if_neg (by omega : ¬ maxPolls ≤ pollCount + 1)]
    have hrec := ih (pollCount + 1) (by omega)
      (fun i h1 h2 => hall i (by omega) (by omega))
      (by rw [← herr]; ring_nf)
    rw [hrec]

/-! ## Claim theorems -/

/-- C1: the chat polling loop polls at a fixed 2000 ms interval; in any
run where every poll that returns does so with a status other than
`completed` or `failed`, exactly 150 status requests are issued, the
150th attempt stops (clears) the interval and the operation rejects with
the timeout error; and no run ever issues more than 150 status
requests. -/
theorem pollJobStatus_stops_after_150 (replies : Nat → PollReply)
    (h : ∀ i, i < maxPolls → isNonTerminal (replies i) = true) :
    pollIntervalMs = 2000 ∧
    pollJobStatus replies = (150, true, .rejected pollTimeoutError) ∧
    ∀ replies2 : Nat → PollReply, (pollJobStatus replies2).1 ≤ 150 := by
  refine ⟨rfl, ?_, ?_⟩
  · have := pollTicks_timeout replies maxPolls 0 (by simp)
      (by simp [maxPolls]) (fun i _ h2 => h i h2)
    simpa [pollJobStatus, maxPolls] using this
  · intro replies2
    have := pollTicks_le replies2 maxPolls 0 (by simp) (by simp [maxPolls])
    simpa [pollJobStatus, maxPolls] using this

/-- Witness for C1: a job that never leaves `processing` is polled exactly
150 times and times out. -/
theorem pollJobStatus_stops_after_150_witness :
    pollIntervalMs = 2000 ∧
    pollJobStatus (fun _ => processingReply) = (150, true, .rejected pollTimeoutError) ∧
    ∀ replies2 : Nat → PollReply, (pollJobStatus replies2).1 ≤ 150 :=
  pollJobStatus_stops_after_150 (fun _ => processingReply) (by decide)

/-- C2: a 401 through the shared api client removes the `token` and `user`
local-storage entries (leaving every other key unchanged) and redirects to
`/login`; any other status leaves storage untouched and triggers no
redirect. -/
theorem api_401_clears_credentials (st : LocalStorage) (status : Nat)
    (hne : status ≠ 401) :
    ((apiHandleStatus st 401).storage "token" = none ∧
     (apiHandleStatus st 401).storage "user" = none ∧
     (∀ k, k ≠ "token" → k ≠ "user" → (apiHandleStatus st 401).storage k = st k) ∧
     (apiHandleStatus st 401).redirect = some "/login") ∧
    (apiHandleStatus st status).storage = st ∧
    (apiHandleStatus st status).redirect = none := by
  constructor
  · refine ⟨?_, ?_, ?_, ?_⟩ <;>
      simp [apiHandleStatus, validateStatus, onResponseRejected, removeItem]
    intro k h1 h2
    simp [h1, h2]
  · unfold apiHandleStatus
    by_cases hv : validateStatus status = true
    · simp [hv]
    · simp only [hv, Bool.false_eq_true, if_false]
      unfold onResponseRejected
      simp [hne]

/-- Witness for C2: concrete storage, status 500 is untouched. -/
theorem api_401_clears_credentials_witness :
    ((apiHandleStatus storageEx 401).storage "token" = none ∧
     (apiHandleStatus storageEx 401).storage "user" = none ∧
     (∀ k, k ≠ "token" → k ≠ "user" → (apiHandleStatus storageEx 401).storage k = storageEx k) ∧
     (apiHandleStatus storageEx 401).redirect = some "/login") ∧
    (apiHandleStatus storageEx 500).storage = storageEx ∧
    (apiHandleStatus storageEx 500).redirect = none :=
  api_401_clears_credentials storageEx 500 (by decide)

/-- C3 counterexample: the `scan_status` enum declared in the schema is
not the four-state set the spec describes — `radiologist_reviewed` (and
`cancelled`) are enum values too. -/
theorem scan_status_not_four_states :
    scan_status_values ≠ ["pending", "in_progress", "ai_analyzed", "completed"] ∧
    "radiologist_reviewed" ∈ scan_status_values ∧
    "radiologist_reviewed" ∉ (["pending", "in_progress", "ai_analyzed", "completed"] : List String) ∧
    "cancelled" ∈ scan_status_values ∧
    "cancelled" ∉ (["pending", "in_progress", "ai_analyzed", "completed"] : List String) := by
  refine ⟨?_, ?_, ?_, ?_, ?_⟩ <;> decide

/-- C3 amended: the `scan_status` enum consists of the six states
`pending`, `in_progress`, `ai_analyzed`, `radiologist_reviewed`,
`completed`, `cancelled`; the spec's four states are a strict subset. -/
theorem scan_status_is_six_states :
    scan_status_values = ScanStatus.all.map ScanStatus.toSql ∧
    scan_status_values.length = 6 ∧
    (∀ s ∈ ["pending", "in_progress", "ai_analyzed", "completed"], s ∈ scan_status_values) ∧
    scan_status_values =
      ["pending", "in_progress", "ai_analyzed", "radiologist_reviewed", "completed", "cancelled"] := by
  refine ⟨rfl, rfl, ?_, rfl⟩
  decide

/-- C5: failures are never retried — if every poll before index `k`
stays non-terminal and the poll at `k` throws `e`, the run clears the
interval and rejects with `e` after exactly `k + 1` status requests; and
when the `/rag/chat/start` request itself throws, the only request of the
interaction is that start request and the error is surfaced as the
assistant message, with no poll issued. -/
theorem no_retry_on_failure (replies : Nat → PollReply) (e : AxiosErrorModel)
    (k : Nat) (hk : k < maxPolls)
    (hbefore : ∀ i, i < k → isNonTerminal (replies i) = true)
    (herr : replies k = .err e) :
    pollJobStatus replies = (k + 1, true, .rejected e) ∧
    ∀ base input starterr, jsTrim input ≠ "" →
      sendMessagePolling base input false (.err starterr) replies =
        ([⟨"POST", base ++ "/rag/chat/start", some 10000⟩],
         [{ role := "user", content := jsTrim input },
          { role := "assistant", content := chatErrorMessagePolling starterr }]) := by
  constructor
  · have := pollTicks_err replies e k 0 (by omega)
      (fun i h1 h2 => hbefore i (by omega)) (by simpa using herr)
    simpa [pollJobStatus] using this
  · intro base input starterr hinput
    simp [sendMessagePolling, hinput]

/-- Witness for C5: three processing polls, then a thrown request — four
requests total, rejected with that error; start failure issues only the
start request. -/
theorem no_retry_on_failure_witness :
    pollJobStatus repliesErrAt3 = (4, true, .rejected networkErrorEx) ∧
    sendMessagePolling "http://localhost:8000/api" "hi" false (.err networkErrorEx) repliesErrAt3 =
      ([⟨"POST", "http://localhost:8000/api" ++ "/rag/chat/start", some 10000⟩],
       [{ role := "user", content := "hi" },
        { role := "assistant", content := chatErrorMessagePolling networkErrorEx }]) := by
  have h := no_retry_on_failure repliesErrAt3 networkErrorEx 3 (by decide)
    (by decide) (by decide)
  exact ⟨h.1, h.2 "http://localhost:8000/api" "hi" networkErrorEx (by decide)⟩

/-- `urgencyCase` is injective: equal sort keys mean equal urgency. -/
theorem urgencyCase_inj {u v : UrgencyLevel} (h : urgencyCase u = urgencyCase v) : u = v := by
  cases u <;> cases v <;> simp [urgencyCase] at h ⊢

/-- C4 counterexample: the service layer targets `/auth/logout`
(`authService.logout`), which the spec list does not contain, and no
service function targets the listed `/rag/chat`. -/
theorem service_paths_counterexample :
    authService_logout.url = "/auth/logout" ∧
    "/auth/logout" ∈ serviceLayerPaths ∧
    "/auth/logout" ∉ specListedPaths ∧
    "/rag/chat" ∈ specListedPaths ∧
    "/rag/chat" ∉ serviceLayerPaths := by
  refine ⟨rfl, ?_, ?_, ?_, ?_⟩ <;> decide

/-- C4 amended: every service-layer path is either in the spec list or one
of the six extra paths (`/auth/logout`, `/auth/me`, `/patient/scans/{id}`,
`/patient/reports/{id}`, `/radiologist/scans/{id}/upload-image`,
`/radiologist/profile`); every non-rag path of the spec list is targeted
by a service function; the rag paths are targeted by no service function —
they are issued by the chat components directly (the synchronous variant
only to `/rag/chat`, the polling variant only to `/rag/chat/start` and
`/rag/chat/status/{jobId}`). -/
theorem service_paths_amended :
    (∀ p ∈ serviceLayerPaths, p ∈ specListedPaths ∨ p ∈ serviceLayerExtraPaths) ∧
    (∀ p ∈ specListedPaths, p ∉ ragPaths → p ∈ serviceLayerPaths) ∧
    (∀ p ∈ ragPaths, p ∉ serviceLayerPaths) ∧
    (∀ base input reply, ∀ c ∈ (sendMessageSync base input false reply).1,
      c.url = base ++ "/rag/chat") ∧
    (∀ base input start replies,
      ∀ c ∈ (sendMessagePolling base input false start replies).1,
        c.url = base ++ "/rag/chat/start" ∨
          ∃ jobId, c.url = base ++ "/rag/chat/status/" ++ jobId) := by
  refine ⟨by decide, by decide, by decide, ?_, ?_⟩
  · intro base input reply c hc
    unfold sendMessageSync at hc
    split at hc
    · simp at hc
    · cases reply <;> simp at hc <;> rw [hc]
  · intro base input start replies c hc
    unfold sendMessagePolling at hc
    split at hc
    · simp at hc
    · cases start with
      | err e => simp at hc; rw [hc]; left; rfl
      | ok job_id =>
        dsimp only at hc
        revert hc
        cases (pollJobStatus replies).2.2 <;> intro hc <;>
            simp only [List.mem_cons, List.mem_map, List.mem_range] at hc <;>
            rcases hc with rfl | ⟨i, -, rfl⟩
        · left; rfl
        · right; exact ⟨job_id, rfl⟩
        · left; rfl
        · right; exact ⟨job_id, rfl⟩

/-- Witness for C4 (amended): the extra path `/auth/logout` is accounted
for, and a concrete synchronous chat request goes to `/rag/chat`. -/
theorem service_paths_amended_witness :
    ("/auth/logout" ∈ specListedPaths ∨ "/auth/logout" ∈ serviceLayerExtraPaths) ∧
    ∀ c ∈ (sendMessageSync "http://localhost:8000/api" "hi" false
        (.ok "answer" none)).1,
      c.url = "http://localhost:8000/api" ++ "/rag/chat" :=
  ⟨service_paths_amended.1 "/auth/logout" (by decide),
   service_paths_amended.2.2.2.1 "http://localhost:8000/api" "hi" (.ok "answer" none)⟩

/-- C6: the synchronous chat variant issues exactly one request per
message — a POST to `/rag/chat` with a 300000 ms timeout — and on success
appends the single response as the assistant message; no status request of
any kind is issued. -/
theorem sync_chat_single_request (base input resp : String)
    (sources : Option (List String)) (h : jsTrim input ≠ "") :
    sendMessageSync base input false (.ok resp sources) =
      ([⟨"POST", base ++ "/rag/chat", some 300000⟩],
       [{ role := "user", content := jsTrim input },
        { role := "assistant", content := resp, sources := sources.getD [] }]) ∧
    ∀ reply, (sendMessageSync base input false reply).1.length = 1 ∧
      ∀ c ∈ (sendMessageSync base input false reply).1,
        c = ⟨"POST", base ++ "/rag/chat", some 300000⟩ := by
  constructor
  · simp [sendMessageSync, h]
  · intro reply
    cases reply <;> simp [sendMessageSync, h]

/-- Witness for C6: a concrete message through the synchronous variant. -/
theorem sync_chat_single_request_witness :
    sendMessageSync "http://localhost:8000/api" "hi" false (.ok "answer" none) =
      ([⟨"POST", "http://localhost:8000/api" ++ "/rag/chat", some 300000⟩],
       [{ role := "user", content := jsTrim "hi" },
        { role := "assistant", content := "answer", sources := (none : Option (List String)).getD [] }]) ∧
    ∀ reply, (sendMessageSync "http://localhost:8000/api" "hi" false reply).1.length = 1 ∧
      ∀ c ∈ (sendMessageSync "http://localhost:8000/api" "hi" false reply).1,
        c = ⟨"POST", "http://localhost:8000/api" ++ "/rag/chat", some 300000⟩ :=
  sync_chat_single_request "http://localhost:8000/api" "hi" "answer" none (by decide)

/-- C7 counterexample: in the synchronous variant, a failed request whose
error has an `error.message` but no server detail is shown as the generic
text, not as the error message — so the generic text does not appear only
when no server detail or error message is available. -/
theorem sync_chat_ignores_error_message :
    networkErrorEx.responseDetail = none ∧
    networkErrorEx.message = some "Network Error" ∧
    jsTruthy networkErrorEx.message = true ∧
    chatErrorMessageSync networkErrorEx = "Sorry, I encountered an error. Please try again." ∧
    chatErrorMessageSync networkErrorEx ≠ "Network Error" ∧
    (sendMessageSync "http://localhost:8000/api" "hi" false (.err networkErrorEx)).2 =
      [{ role := "user", content := "hi" },
       { role := "assistant", content := "Sorry, I encountered an error. Please try again." }] := by
  refine ⟨rfl, rfl, by decide, rfl, by decide, by decide⟩

/-- C7 amended: the polling variant picks the assistant error message in
order — a dedicated slow-response text for a 504, else the server detail
when one is provided, else `error.message` when available, else the
generic text; the synchronous variant uses only the server detail and
otherwise the generic text, never `error.message`; and each variant shows
exactly that message as the assistant message of a failed request. -/
theorem chat_error_message_selection :
    (∀ e : AxiosErrorModel, e.responseStatus = some 504 →
      chatErrorMessagePolling e =
        "The AI is taking longer than expected to respond. Please try a simpler question or try again later.") ∧
    (∀ e : AxiosErrorModel, e.responseStatus ≠ some 504 →
      jsTruthy e.responseDetail = true →
      chatErrorMessagePolling e = e.responseDetail.getD "") ∧
    (∀ e : AxiosErrorModel, e.responseStatus ≠ some 504 →
      jsTruthy e.responseDetail = false → jsTruthy e.message = true →
      chatErrorMessagePolling e = e.message.getD "") ∧
    (∀ e : AxiosErrorModel, e.responseStatus ≠ some 504 →
      jsTruthy e.responseDetail = false → jsTruthy e.message = false →
      chatErrorMessagePolling e = "Sorry, I encountered an error. Please try again.") ∧
    (∀ e : AxiosErrorModel, jsTruthy e.responseDetail = true →
      chatErrorMessageSync e = e.responseDetail.getD "") ∧
    (∀ e : AxiosErrorModel, jsTruthy e.responseDetail = false →
      chatErrorMessageSync e = "Sorry, I encountered an error. Please try again.") ∧
    (∀ base input e replies, jsTrim input ≠ "" →
      (sendMessagePolling base input false (.err e) replies).2 =
        [{ role := "user", content := jsTrim input },
         { role := "assistant", content := chatErrorMessagePolling e }]) ∧
    (∀ base input e, jsTrim input ≠ "" →
      (sendMessageSync base input false (.err e)).2 =
        [{ role := "user", content := jsTrim input },
         { role := "assistant", content := chatErrorMessageSync e }]) := by
  refine ⟨?_, ?_, ?_, ?_, ?_, ?_, ?_, ?_⟩
  · intro e h
    simp [chatErrorMessagePolling, h]
  · intro e h1 h2
    simp [chatErrorMessagePolling, h1, h2]
  · intro e h1 h2 h3
    simp [chatErrorMessagePolling, h1, h2, h3]
  · intro e h1 h2 h3
    simp [chatErrorMessagePolling, h1, h2, h3]
  · intro e h
    cases hd : e.responseDetail with
    | none => rw [hd] at h; simp [jsTruthy] at h
    | some s =>
      rw [hd] at h
      simp only [jsTruthy, ne_eq, decide_eq_true_eq] at h
      simp [chatErrorMessageSync, jsOrElse, hd, h]
  · intro e h
    cases hd : e.responseDetail with
    | none => simp [chatErrorMessageSync, jsOrElse, hd]
    | some s =>
      rw [hd] at h
      have hs : s = "" := by simpa [jsTruthy] using h
      simp [chatErrorMessageSync, jsOrElse, hd, hs]
  · intro base input e replies h
    simp [sendMessagePolling, h]
  · intro base input e h
    simp [sendMessageSync, h]

/-- Witness for C7 (amended): a 504 shows the slow-response text; an error
with a server detail shows that detail. -/
theorem chat_error_message_selection_witness :
    chatErrorMessagePolling err504Ex =
      "The AI is taking longer than expected to respond. Please try a simpler question or try again later." ∧
    chatErrorMessageSync detailErrorEx = detailErrorEx.responseDetail.getD "" :=
  ⟨chat_error_message_selection.1 err504Ex rfl,
   chat_error_message_selection.2.2.2.2.1 detailErrorEx (by decide)⟩

/-- C8: every row of `v_patient_reports` comes from a report that is
published together with a publication record that is visible to the
patient and not unpublished — a patient can never see a draft, hidden, or
unpublished report through the view. -/
theorem patient_reports_only_published_visible
    (reports : List ReportRow) (scans : List ScanRow)
    (profiles : List PatientProfileRow) (users : List UserRow)
    (pubs : List ReportPublicationRow) (row : PatientReportRow)
    (hrow : row ∈ v_patient_reports reports scans profiles users pubs) :
    ∃ r ∈ reports, ∃ rp ∈ pubs,
      rp.report_id = r.id ∧ row.report_id = r.id ∧
      r.report_status = .published ∧ rp.visible_to_patient = true ∧
      rp.unpublished_at = none := by
  unfold v_patient_reports at hrow
  simp only [List.mem_flatMap, List.mem_filterMap] at hrow
  obtain ⟨r, hr, s, hs, pp, hpp, u, hu, rp, hrp, hif⟩ := hrow
  split at hif
  · rename_i hcond
    obtain ⟨-, -, -, h4, h5, h6, h7⟩ := hcond
    cases hif
    exact ⟨r, hr, rp, hrp, h4, rfl, h5, h6, h7⟩
  · simp at hif

/-- Witness for C8: a concrete published, visible report appears in the
view and its provenance satisfies all three conditions. -/
theorem patient_reports_only_published_visible_witness :
    ∃ r ∈ [reportEx], ∃ rp ∈ [pubEx],
      rp.report_id = r.id ∧ patientReportRowEx.report_id = r.id ∧
      r.report_status = .published ∧ rp.visible_to_patient = true ∧
      rp.unpublished_at = none :=
  patient_reports_only_published_visible
    [reportEx] [scanEx] [profileEx] [userEx] [pubEx] patientReportRowEx (by decide)

/-- C9: every row of `v_pending_scans` has status `pending`,
`in_progress` or `ai_analyzed`, and the rows are pairwise ordered:
strictly more urgent (smaller urgency case value) first, and within one
urgency level ascending by scan date — so every Emergent row precedes
every Urgent row, which precedes every Routine row. -/
theorem pending_scans_filtered_and_ordered (scans : List ScanRow) :
    (∀ row ∈ v_pending_scans scans, row.status ∈ pendingStatuses) ∧
    (v_pending_scans scans).Pairwise (fun a b =>
      urgencyCase a.urgency_level < urgencyCase b.urgency_level ∨
        (a.urgency_level = b.urgency_level ∧ a.scan_date ≤ b.scan_date)) := by
  constructor
  · intro row hrow
    unfold v_pending_scans at hrow
    rw [List.mem_insertionSort] at hrow
    have := List.mem_filter.mp hrow
    simpa using this.2
  · have hs := List.sorted_insertionSort pendingOrder
      (scans.filter fun s => decide (s.status ∈ pendingStatuses))
    unfold v_pending_scans
    refine List.Pairwise.imp ?_ hs
    intro a b hab
    rcases hab with h | ⟨h, h2⟩
    · exact Or.inl h
    · exact Or.inr ⟨urgencyCase_inj h, h2⟩

/-- Witness for C9: the view of the concrete scan list evaluates to the
expected order (both Emergent rows, dated 3 then 9, then the Urgent row,
then the Routine row; the completed scan is dropped), and the theorem
instantiates on it. -/
theorem pending_scans_filtered_and_ordered_witness :
    (v_pending_scans scansEx).map (fun s => s.id) = [14, 11, 12, 10] ∧
    (∀ row ∈ v_pending_scans scansEx, row.status ∈ pendingStatuses) ∧
    (v_pending_scans scansEx).Pairwise (fun a b =>
      urgencyCase a.urgency_level < urgencyCase b.urgency_level ∨
        (a.urgency_level = b.urgency_level ∧ a.scan_date ≤ b.scan_date)) :=
  ⟨by decide, (pending_scans_filtered_and_ordered scansEx).1,
    (pending_scans_filtered_and_ordered scansEx).2⟩

/-- C10: when the loaded report is published, `handleSaveDraft` only
alerts and issues no request; conversely any request it issues is the PUT
`radiologistService.updateReport` for a loaded, non-published report. -/
theorem save_draft_blocked_when_published (report : Option LoadedReport)
    (r : LoadedReport) (saveSucceeds : Bool)
    (hpub : r.report_status = "published") :
    handleSaveDraft (some r) saveSucceeds =
      ([], some "Cannot edit a published report. Please unpublish it first.") ∧
    ∀ c ∈ (handleSaveDraft report saveSucceeds).1,
      ∃ rr, report = some rr ∧ rr.report_status ≠ "published" ∧
        c = radiologistService_updateReport rr.id ∧ c.method = "PUT" := by
  constructor
  · simp [handleSaveDraft, hpub]
  · intro c hc
    match report with
    | none => simp [handleSaveDraft] at hc
    | some rr =>
      by_cases h : rr.report_status = "published"
      · simp [handleSaveDraft, h] at hc
      · simp only [handleSaveDraft, h, if_false, List.mem_singleton] at hc
        exact ⟨rr, rfl, h, hc, by rw [hc]; rfl⟩

/-- Witness for C10: a published report is blocked with the alert; a draft
report's save issues the PUT. -/
theorem save_draft_blocked_when_published_witness :
    handleSaveDraft (some ⟨"rep-1", "published"⟩) true =
      ([], some "Cannot edit a published report. Please unpublish it first.") ∧
    ∀ c ∈ (handleSaveDraft (some ⟨"rep-2", "draft"⟩) true).1,
      ∃ rr, (some (⟨"rep-2", "draft"⟩ : LoadedReport)) = some rr ∧
        rr.report_status ≠ "published" ∧
        c = radiologistService_updateReport rr.id ∧ c.method = "PUT" :=
  save_draft_blocked_when_published (some ⟨"rep-2", "draft"⟩) ⟨"rep-1", "published"⟩
    true rfl

end MedScan
